import Mathlib

/-!
Verification development for the SuperBenchmark service (src/main.py):
a small HTTP service storing benchmarking records in memory and exposing
two read endpoints that compute arithmetic means, gated behind a debug
environment flag.  Python integers are modelled as `Int`, floating-point
averages as `Rat` (the sums and counts involved are integers, so rational
division captures the computed value), datetimes as a structured
point-in-time record compared lexicographically, and fallible operations
return `Option`/`Except`.
-/

namespace SuperBenchmark

/-- Modelled from the spec: the structured point-in-time value produced by
the standard library datetime parser (date plus time of day, compared
field-lexicographically, which the key encoding realizes for in-range
components). -/
structure PyDateTime where
  year : Nat
  month : Nat
  day : Nat
  hour : Nat
  minute : Nat
  second : Nat
deriving DecidableEq, Repr

def PyDateTime.key (d : PyDateTime) : Nat :=
  ((((d.year * 13 + d.month) * 32 + d.day) * 24 + d.hour) * 60 + d.minute) * 60 + d.second

instance : LE PyDateTime := ⟨fun a b => PyDateTime.key a ≤ PyDateTime.key b⟩

instance instPyDateTimeDecLE (a b : PyDateTime) : Decidable (a ≤ b) :=
  Nat.decLe a.key b.key

/-- Two consecutive decimal digit characters. -/
def digit2 (a b : Char) : Option Nat :=
  if a.isDigit && b.isDigit then some ((a.toNat - 48) * 10 + (b.toNat - 48)) else none

/-- Four consecutive decimal digit characters. -/
def digit4 (a b c d : Char) : Option Nat :=
  if a.isDigit && b.isDigit && c.isDigit && d.isDigit then
    some ((((a.toNat - 48) * 10 + (b.toNat - 48)) * 10 + (c.toNat - 48)) * 10 + (d.toNat - 48))
  else none

/-- Range validation of the parsed components (the stdlib parser rejects
out-of-range months, days, hours, minutes and seconds). -/
def mkDate (y mo d h mi s : Nat) : Option PyDateTime :=
  if 1 ≤ mo ∧ mo ≤ 12 ∧ 1 ≤ d ∧ d ≤ 31 ∧ h ≤ 23 ∧ mi ≤ 59 ∧ s ≤ 59 then
    some ⟨y, mo, d, h, mi, s⟩
  else none

/-- Modelled from the spec: the standard library ISO 8601 parser
(`datetime.fromisoformat`), restricted to the forms "YYYY-MM-DD" and
"YYYY-MM-DD&HH:MM:SS" with "&" a single separator character "T" or
a space; any string outside these forms, or with out-of-range
components, fails to parse (`ValueError` in the source), giving `none`. -/
def fromisoformat (s : String) : Option PyDateTime :=
  match s.toList with
  | [y1, y2, y3, y4, c1, m1, m2, c2, d1, d2] =>
    if c1 = '-' ∧ c2 = '-' then do
      let y ← digit4 y1 y2 y3 y4
      let mo ← digit2 m1 m2
      let d ← digit2 d1 d2
      mkDate y mo d 0 0 0
    else none
  | [y1, y2, y3, y4, c1, m1, m2, c2, d1, d2, sep, h1, h2, c3, mi1, mi2, c4, s1, s2] =>
    if c1 = '-' ∧ c2 = '-' ∧ (sep = 'T' ∨ sep = ' ') ∧ c3 = ':' ∧ c4 = ':' then do
      let y ← digit4 y1 y2 y3 y4
      let mo ← digit2 m1 m2
      let d ← digit2 d1 d2
      let h ← digit2 h1 h2
      let mi ← digit2 mi1 mi2
      let sec ← digit2 s1 s2
      mkDate y mo d h mi sec
    else none
  | _ => none

/-- The `BenchmarkingResult` pydantic model of src/main.py. -/
structure BenchmarkingResult where
  request_id : String
  prompt_text : String
  generated_text : String
  token_count : Int
  time_to_first_token : Int
  time_per_output_token : Int
  total_generation_time : Int
  timestamp : PyDateTime
deriving DecidableEq, Repr

/-- An HTTP response: either a 200 body (the JSON mapping of the four
average keys to numbers) or an `HTTPException` carrying a status code and
a detail message. -/
inductive Response where
  | ok : List (String × Rat) → Response
  | httpError : Nat → String → Response
deriving DecidableEq, Repr

/-- `compute_average` of src/main.py: sums each of the four numeric fields
over the given records and divides by the record count, returning the
four fixed keys in source order. -/
def compute_average (results : List BenchmarkingResult) : List (String × Rat) :=
  let count : Rat := (results.length : Rat)
  let total_token_count : Rat := (((results.map (fun r => r.token_count)).sum : Int) : Rat)
  let total_time_to_first_token : Rat :=
    (((results.map (fun r => r.time_to_first_token)).sum : Int) : Rat)
  let total_time_per_output_token : Rat :=
    (((results.map (fun r => r.time_per_output_token)).sum : Int) : Rat)
  let total_generation_time : Rat :=
    (((results.map (fun r => r.total_generation_time)).sum : Int) : Rat)
  [("average_token_count", total_token_count / count),
   ("average_time_to_first_token", total_time_to_first_token / count),
   ("average_time_per_output_token", total_time_per_output_token / count),
   ("average_total_generation_time", total_generation_time / count)]

/-- Handler for `GET /results/average` (src/main.py, get_average_results),
applied to the Record Store contents. -/
def get_average_results (store : List BenchmarkingResult) : Response :=
  if store.isEmpty then .httpError 404 "No benchmarking results found."
  else .ok (compute_average store)

/-- The window membership test of the list comprehension in
get_average_results_in_window: `start_dt <= result.timestamp <= end_dt`. -/
def in_window (start_dt end_dt : PyDateTime) (result : BenchmarkingResult) : Bool :=
  decide (start_dt ≤ result.timestamp) && decide (result.timestamp ≤ end_dt)

/-- The filtered Record Store of get_average_results_in_window. -/
def filtered_results (start_dt end_dt : PyDateTime) (store : List BenchmarkingResult) :
    List BenchmarkingResult :=
  store.filter (in_window start_dt end_dt)

/-- The post-parse stage of get_average_results_in_window: filter to the
window, 404 when nothing matches, otherwise aggregate the filtered set. -/
def window_average (start_dt end_dt : PyDateTime) (store : List BenchmarkingResult) : Response :=
  if (filtered_results start_dt end_dt store).isEmpty then
    .httpError 404 "No benchmarking results found in the specified time window."
  else .ok (compute_average (filtered_results start_dt end_dt store))

/-- Handler for `GET /results/average/{start_time}/{end_time}`
(src/main.py, get_average_results_in_window), applied to the two path
segments and the Record Store contents. -/
def get_average_results_in_window (start_time end_time : String)
    (store : List BenchmarkingResult) : Response :=
  match fromisoformat start_time, fromisoformat end_time with
  | some start_dt, some end_dt => window_average start_dt end_dt store
  | _, _ => .httpError 400 "Invalid datetime format. Use ISO 8601 format."

/-- The two process-wide operating modes of the HTTP Layer, fixed at
startup by the debug flag. -/
inductive Mode where
  | gated : Mode
  | active : Mode
deriving DecidableEq, Repr

/-- Modelled from the spec: Python `str.lower`, lowercasing each
character. -/
def pyLower (s : String) : String :=
  String.mk (s.toList.map Char.toLower)

/-- The `SUPERBENCHMARK_DEBUG` computation of src/main.py:
`os.getenv("SUPERBENCHMARK_DEBUG", "False").lower() == "true"`, with the
environment lookup result passed in (`none` when the variable is absent). -/
def SUPERBENCHMARK_DEBUG (env : Option String) : Bool :=
  pyLower (env.getD "False") == "true"

/-- The mode selected at startup: active when the debug flag is truthy,
otherwise gated behind the 503 middleware. -/
def serviceMode (env : Option String) : Mode :=
  if SUPERBENCHMARK_DEBUG env then .active else .gated

/-- The `not_ready_middleware` of src/main.py: the fixed 503 response
raised for every request in gated mode. -/
def not_ready_middleware : Response :=
  .httpError 503 "Feature not ready for live yet. Enable DEBUG mode."

/-- The FastAPI routing table of src/main.py in active mode: the two GET
routes, and 404 for anything else. -/
def route (store : List BenchmarkingResult) (method path : String) : Response :=
  match method, path.splitOn "/" with
  | "GET", ["", "results", "average"] => get_average_results store
  | "GET", ["", "results", "average", start_time, end_time] =>
    get_average_results_in_window start_time end_time store
  | _, _ => .httpError 404 "Not Found"

/-- One incoming HTTP request, dispatched according to the operating mode:
in gated mode the middleware short-circuits every request before any
routing; in active mode the request is routed to the handlers. -/
def handle (m : Mode) (store : List BenchmarkingResult) (method path : String) : Response :=
  match m with
  | .gated => not_ready_middleware
  | .active => route store method path

/-- A parsed JSON document, as produced by `json.load` over the seed
file: the shapes the loader can encounter. -/
inductive JsonVal where
  | null : JsonVal
  | boolVal : Bool → JsonVal
  | intVal : Int → JsonVal
  | strVal : String → JsonVal
  | arrVal : List JsonVal → JsonVal
  | objVal : List (String × JsonVal) → JsonVal

/-- Modelled from the spec: the type/shape validation performed when
constructing a `BenchmarkingResult` from one seed-file record object
(stdlib datetime conversion of the timestamp plus pydantic field
validation) — every required field must be present with the right type
and the timestamp string must parse, else validation fails. -/
def recordOfObj (kvs : List (String × JsonVal)) : Option BenchmarkingResult := do
  let rid ← match List.lookup "request_id" kvs with
    | some (.strVal v) => some v
    | _ => none
  let pt ← match List.lookup "prompt_text" kvs with
    | some (.strVal v) => some v
    | _ => none
  let gt ← match List.lookup "generated_text" kvs with
    | some (.strVal v) => some v
    | _ => none
  let tc ← match List.lookup "token_count" kvs with
    | some (.intVal v) => some v
    | _ => none
  let tf ← match List.lookup "time_to_first_token" kvs with
    | some (.intVal v) => some v
    | _ => none
  let tp ← match List.lookup "time_per_output_token" kvs with
    | some (.intVal v) => some v
    | _ => none
  let tg ← match List.lookup "total_generation_time" kvs with
    | some (.intVal v) => some v
    | _ => none
  let ts ← match List.lookup "timestamp" kvs with
    | some (.strVal v) => some v
    | _ => none
  let d ← fromisoformat ts
  pure ⟨rid, pt, gt, tc, tf, tp, tg, d⟩

/-- Validation of one item of the `benchmarking_results` sequence: the
timestamp conversion and model construction of the loop body in
load_test_data, with any exception surfacing as an error. -/
def parseRecord (item : JsonVal) : Except String BenchmarkingResult :=
  match item with
  | .objVal kvs =>
    match recordOfObj kvs with
    | some r => .ok r
    | none => .error "record failed validation"
  | _ => .error "record is not a mapping"

/-- The loop of load_test_data: convert the items in order, stopping at
the first record that fails validation. -/
def parseRecords : List JsonVal → Except String (List BenchmarkingResult)
  | [] => .ok []
  | item :: rest =>
    match parseRecord item with
    | .error e => .error e
    | .ok r =>
      match parseRecords rest with
      | .error e => .error e
      | .ok rs => .ok (r :: rs)

/-- `load_test_data` of src/main.py, applied to the result of reading and
JSON-parsing `test_database.json` (`.error` when the file is missing,
unreadable or malformed JSON).  Every exception inside the `try` block is
wrapped into the "Error loading test database" message;
`data.get("benchmarking_results", [])` defaults the missing key to the
empty sequence. -/
def load_test_data (file : Except String JsonVal) :
    Except String (List BenchmarkingResult) :=
  match file with
  | .error e => .error ("Error loading test database: " ++ e)
  | .ok (.objVal kvs) =>
    match List.lookup "benchmarking_results" kvs with
    | none => .ok []
    | some (.arrVal items) =>
      match parseRecords items with
      | .ok recs => .ok recs
      | .error e => .error ("Error loading test database: " ++ e)
    | some _ => .error ("Error loading test database: value is not a sequence")
  | .ok _ => .error ("Error loading test database: top-level value is not a mapping")

/-- The startup sequence of src/main.py as it determines the Record Store:
when the debug flag is truthy the Seed Loader populates the store (or
aborts startup with its error); otherwise the store stays empty. -/
def startup_store (env : Option String) (file : Except String JsonVal) :
    Except String (List BenchmarkingResult) :=
  if SUPERBENCHMARK_DEBUG env then load_test_data file else .ok []

/-! Sample data used by the witness theorems. -/

def mkSampleResult (tc : Int) (ts : PyDateTime) : BenchmarkingResult :=
  ⟨"req", "prompt", "generated", tc, 1, 2, 3, ts⟩

def sampleStore : List BenchmarkingResult :=
  [mkSampleResult 10 ⟨2024, 1, 1, 0, 0, 0⟩,
   mkSampleResult 20 ⟨2024, 1, 2, 0, 0, 0⟩,
   mkSampleResult 30 ⟨2024, 1, 3, 0, 0, 0⟩]

/-- C1: for every non-empty list of records, `compute_average` returns a
mapping with exactly the four average keys, each mapped to the sum of the
corresponding field over all records divided by the number of records. -/
theorem compute_average_spec (results : List BenchmarkingResult) (_h : results ≠ []) :
    (compute_average results).map Prod.fst =
      ["average_token_count", "average_time_to_first_token",
       "average_time_per_output_token", "average_total_generation_time"] ∧
    (compute_average results).lookup "average_token_count" =
      some ((((results.map (fun r => r.token_count)).sum : Int) : Rat) /
        (results.length : Rat)) ∧
    (compute_average results).lookup "average_time_to_first_token" =
      some ((((results.map (fun r => r.time_to_first_token)).sum : Int) : Rat) /
        (results.length : Rat)) ∧
    (compute_average results).lookup "average_time_per_output_token" =
      some ((((results.map (fun r => r.time_per_output_token)).sum : Int) : Rat) /
        (results.length : Rat)) ∧
    (compute_average results).lookup "average_total_generation_time" =
      some ((((results.map (fun r => r.total_generation_time)).sum : Int) : Rat) /
        (results.length : Rat)) := by
  refine ⟨rfl, ?_, ?_, ?_, ?_⟩ <;> simp [compute_average, List.lookup]

/-- C1 witness: three records with token counts 10, 20 and 30 give an
`average_token_count` of 20. -/
theorem compute_average_spec_witness :
    sampleStore ≠ [] ∧
    (compute_average sampleStore).map Prod.fst =
      ["average_token_count", "average_time_to_first_token",
       "average_time_per_output_token", "average_total_generation_time"] ∧
    (compute_average sampleStore).lookup "average_token_count" = some 20 := by
  have h := compute_average_spec sampleStore (by decide)
  refine ⟨by decide, h.1, ?_⟩
  rw [h.2.1]
  norm_num [sampleStore, mkSampleResult]

/-- C3: whenever the debug flag is off, every request, whatever its store,
method and path, gets the fixed 503 response, and the response does not
depend on the Record Store. -/
theorem gated_mode_spec (env : Option String) (h : SUPERBENCHMARK_DEBUG env = false) :
    serviceMode env = Mode.gated ∧
    ∀ (store store2 : List BenchmarkingResult) (method path : String),
      handle (serviceMode env) store method path =
        Response.httpError 503 "Feature not ready for live yet. Enable DEBUG mode." ∧
      handle (serviceMode env) store method path =
        handle (serviceMode env) store2 method path := by
  have hm : serviceMode env = Mode.gated := by simp [serviceMode, h]
  refine ⟨hm, fun store store2 method path => ?_⟩
  rw [hm]
  exact ⟨rfl, rfl⟩

/-- C3 witness: with the debug variable absent, a request to a real path
and a request to a nonexistent path both get the 503 response. -/
theorem gated_mode_spec_witness :
    handle (serviceMode none) sampleStore "GET" "/results/average" =
      Response.httpError 503 "Feature not ready for live yet. Enable DEBUG mode." ∧
    handle (serviceMode none) sampleStore "POST" "/no/such/path" =
      Response.httpError 503 "Feature not ready for live yet. Enable DEBUG mode." := by
  have h := gated_mode_spec none (by decide)
  exact ⟨(h.2 sampleStore [] "GET" "/results/average").1,
         (h.2 sampleStore [] "POST" "/no/such/path").1⟩

/-- C4: when either path segment fails to parse, the windowed endpoint
returns the fixed 400 response, independently of the Record Store. -/
theorem bad_timestamp_spec (s e : String) (store : List BenchmarkingResult)
    (h : fromisoformat s = none ∨ fromisoformat e = none) :
    get_average_results_in_window s e store =
      Response.httpError 400 "Invalid datetime format. Use ISO 8601 format." ∧
    ∀ store2, get_average_results_in_window s e store =
      get_average_results_in_window s e store2 := by
  have hmain : ∀ st, get_average_results_in_window s e st =
      Response.httpError 400 "Invalid datetime format. Use ISO 8601 format." := by
    intro st
    unfold get_average_results_in_window
    rcases h with h | h
    · rw [h]
    · rw [h]
      cases fromisoformat s <;> rfl
  exact ⟨hmain store, fun store2 => (hmain store).trans (hmain store2).symm⟩

/-- C4 witness: the segment "not-a-date" does not parse, and the endpoint
returns 400 on it, for an empty and for a populated store alike. -/
theorem bad_timestamp_spec_witness :
    fromisoformat "not-a-date" = none ∧
    get_average_results_in_window "not-a-date" "2024-01-01" sampleStore =
      Response.httpError 400 "Invalid datetime format. Use ISO 8601 format." := by
  have h := bad_timestamp_spec "not-a-date" "2024-01-01" sampleStore (Or.inl (by decide))
  exact ⟨by decide, h.1⟩

/-- C5: in active mode, `GET /results/average` returns 404 exactly when
the Record Store is empty, and otherwise returns the aggregate over the
entire store. -/
theorem empty_store_spec (store : List BenchmarkingResult) :
    (get_average_results store =
      Response.httpError 404 "No benchmarking results found." ↔ store = []) ∧
    (store ≠ [] → get_average_results store = Response.ok (compute_average store)) := by
  cases store with
  | nil => simp [get_average_results]
  | cons r rest => simp [get_average_results]

/-- C5 witness: the empty store gives 404 and the three-record sample
store gives the aggregate mapping. -/
theorem empty_store_spec_witness :
    get_average_results [] = Response.httpError 404 "No benchmarking results found." ∧
    get_average_results sampleStore = Response.ok (compute_average sampleStore) := by
  exact ⟨(empty_store_spec []).1.mpr rfl, (empty_store_spec sampleStore).2 (by decide)⟩

/-- When both segments parse, the windowed handler is its post-parse
stage on the parsed bounds. -/
lemma window_endpoint_parse (s e : String) (start_dt end_dt : PyDateTime)
    (store : List BenchmarkingResult)
    (hs : fromisoformat s = some start_dt) (he : fromisoformat e = some end_dt) :
    get_average_results_in_window s e store = window_average start_dt end_dt store := by
  unfold get_average_results_in_window
  rw [hs, he]

/-- C2: with both path segments parsed, the windowed endpoint reduces to
the post-parse stage over exactly the records whose timestamp t satisfies
start_dt ≤ t ≤ end_dt, both bounds inclusive: a record whose timestamp
equals either bound of a well-formed window is in the filtered set. -/
theorem window_filter_spec (store : List BenchmarkingResult) (s e : String)
    (start_dt end_dt : PyDateTime)
    (hs : fromisoformat s = some start_dt) (he : fromisoformat e = some end_dt) :
    get_average_results_in_window s e store = window_average start_dt end_dt store ∧
    (∀ r, r ∈ filtered_results start_dt end_dt store ↔
      r ∈ store ∧ start_dt ≤ r.timestamp ∧ r.timestamp ≤ end_dt) ∧
    (∀ r ∈ store, start_dt ≤ end_dt →
      r.timestamp = start_dt ∨ r.timestamp = end_dt →
      r ∈ filtered_results start_dt end_dt store) := by
  have hmem : ∀ r, r ∈ filtered_results start_dt end_dt store ↔
      r ∈ store ∧ start_dt ≤ r.timestamp ∧ r.timestamp ≤ end_dt := by
    intro r
    simp [filtered_results, List.mem_filter, in_window, and_assoc]
  refine ⟨window_endpoint_parse s e start_dt end_dt store hs he, hmem, ?_⟩
  · intro r hr hle hcase
    refine (hmem r).mpr ⟨hr, ?_⟩
    rcases hcase with hts | hts <;> rw [hts]
    · exact ⟨Nat.le_refl _, hle⟩
    · exact ⟨hle, Nat.le_refl _⟩

/-- C2 witness: with window 2024-01-01 to 2024-01-02, the sample records
whose timestamps equal the start bound and the end bound are both in the
filtered set, and the endpoint reduces to the post-parse stage. -/
theorem window_filter_spec_witness :
    fromisoformat "2024-01-01" = some ⟨2024, 1, 1, 0, 0, 0⟩ ∧
    fromisoformat "2024-01-02T00:00:00" = some ⟨2024, 1, 2, 0, 0, 0⟩ ∧
    mkSampleResult 10 ⟨2024, 1, 1, 0, 0, 0⟩ ∈
      filtered_results ⟨2024, 1, 1, 0, 0, 0⟩ ⟨2024, 1, 2, 0, 0, 0⟩ sampleStore ∧
    mkSampleResult 20 ⟨2024, 1, 2, 0, 0, 0⟩ ∈
      filtered_results ⟨2024, 1, 1, 0, 0, 0⟩ ⟨2024, 1, 2, 0, 0, 0⟩ sampleStore ∧
    get_average_results_in_window "2024-01-01" "2024-01-02T00:00:00" sampleStore =
      window_average ⟨2024, 1, 1, 0, 0, 0⟩ ⟨2024, 1, 2, 0, 0, 0⟩ sampleStore := by
  have h := window_filter_spec sampleStore "2024-01-01" "2024-01-02T00:00:00"
      ⟨2024, 1, 1, 0, 0, 0⟩ ⟨2024, 1, 2, 0, 0, 0⟩ (by decide) (by decide)
  refine ⟨by decide, by decide, ?_, ?_, h.1⟩
  · exact h.2.2 _ (by decide) (by decide) (Or.inl rfl)
  · exact h.2.2 _ (by decide) (by decide) (Or.inr rfl)

/-- C6: with both segments parsed and no record of the store inside the
inclusive window, the endpoint returns the window-scoped 404 response. -/
theorem empty_window_spec (s e : String) (start_dt end_dt : PyDateTime)
    (store : List BenchmarkingResult)
    (hs : fromisoformat s = some start_dt) (he : fromisoformat e = some end_dt)
    (hnone : ∀ r ∈ store, ¬(start_dt ≤ r.timestamp ∧ r.timestamp ≤ end_dt)) :
    get_average_results_in_window s e store =
      Response.httpError 404 "No benchmarking results found in the specified time window." := by
  have hfilter : filtered_results start_dt end_dt store = [] := by
    rw [filtered_results, List.filter_eq_nil_iff]
    intro r hr
    simpa [in_window] using hnone r hr
  rw [window_endpoint_parse s e start_dt end_dt store hs he]
  unfold window_average
  rw [hfilter]
  rfl

/-- C6 witness: a 2023 window over the all-2024 sample store returns the
window-scoped 404. -/
theorem empty_window_spec_witness :
    get_average_results_in_window "2023-01-01" "2023-12-31" sampleStore =
      Response.httpError 404 "No benchmarking results found in the specified time window." :=
  empty_window_spec "2023-01-01" "2023-12-31" ⟨2023, 1, 1, 0, 0, 0⟩
    ⟨2023, 12, 31, 0, 0, 0⟩ sampleStore (by decide) (by decide) (by decide)

/-- C7: on a non-empty store, a window whose parsed start is the minimum
timestamp of the store and whose parsed end is the maximum timestamp
returns the same response as the unwindowed endpoint. -/
theorem full_window_spec (store : List BenchmarkingResult) (s e : String)
    (start_dt end_dt : PyDateTime) (hne : store ≠ [])
    (hs : fromisoformat s = some start_dt) (he : fromisoformat e = some end_dt)
    (hminMem : start_dt ∈ store.map (fun r => r.timestamp))
    (hmin : ∀ r ∈ store, start_dt ≤ r.timestamp)
    (hmaxMem : end_dt ∈ store.map (fun r => r.timestamp))
    (hmax : ∀ r ∈ store, r.timestamp ≤ end_dt) :
    get_average_results_in_window s e store = get_average_results store := by
  have hfilter : filtered_results start_dt end_dt store = store := by
    rw [filtered_results, List.filter_eq_self]
    intro r hr
    simp [in_window]
    exact ⟨hmin r hr, hmax r hr⟩
  rw [window_endpoint_parse s e start_dt end_dt store hs he]
  unfold window_average get_average_results
  rw [hfilter]
  cases store with
  | nil => exact absurd rfl hne
  | cons a l => rfl

/-- C7 witness: the window from the minimum sample timestamp 2024-01-01
to the maximum 2024-01-03 gives the same response as the unwindowed
endpoint on the sample store. -/
theorem full_window_spec_witness :
    get_average_results_in_window "2024-01-01" "2024-01-03" sampleStore =
      get_average_results sampleStore :=
  full_window_spec sampleStore "2024-01-01" "2024-01-03" ⟨2024, 1, 1, 0, 0, 0⟩
    ⟨2024, 1, 3, 0, 0, 0⟩ (by decide) (by decide) (by decide) (by decide)
    (by decide) (by decide) (by decide)

/-- C8: the debug flag is truthy exactly when the environment variable is
present with a value lowercasing to "true"; it is off when the variable is
absent; the Seed Loader runs exactly when the flag is truthy, and with the
flag off the Record Store stays empty. -/
theorem debug_flag_spec (env : Option String) (file : Except String JsonVal) :
    (SUPERBENCHMARK_DEBUG env = true ↔ ∃ v, env = some v ∧ pyLower v = "true") ∧
    SUPERBENCHMARK_DEBUG none = false ∧
    (SUPERBENCHMARK_DEBUG env = true → startup_store env file = load_test_data file) ∧
    (SUPERBENCHMARK_DEBUG env = false → startup_store env file = Except.ok []) := by
  refine ⟨?_, by decide, ?_, ?_⟩
  · cases env with
    | none =>
      rw [show SUPERBENCHMARK_DEBUG none = false from by decide]
      simp
    | some v => simp [SUPERBENCHMARK_DEBUG]
  · intro h
    simp [startup_store, h]
  · intro h
    simp [startup_store, h]

/-- C8 witness: the value "TRUE" turns debug mode on and routes startup
through the Seed Loader; an absent variable leaves the flag off and the
store empty. -/
theorem debug_flag_spec_witness :
    SUPERBENCHMARK_DEBUG (some "TRUE") = true ∧
    startup_store (some "TRUE") (Except.ok (JsonVal.objVal [])) =
      load_test_data (Except.ok (JsonVal.objVal [])) ∧
    SUPERBENCHMARK_DEBUG none = false ∧
    startup_store none (Except.ok (JsonVal.objVal [])) = Except.ok [] := by
  have h1 := debug_flag_spec (some "TRUE") (Except.ok (JsonVal.objVal []))
  have h2 := debug_flag_spec none (Except.ok (JsonVal.objVal []))
  have ht : SUPERBENCHMARK_DEBUG (some "TRUE") = true := h1.1.mpr ⟨"TRUE", rfl, by decide⟩
  exact ⟨ht, h1.2.2.1 ht, h2.2.1, h2.2.2.2 h2.2.1⟩

/-- A failing item anywhere in the sequence makes the record-conversion
loop fail. -/
lemma parseRecords_error_of_mem (items : List JsonVal)
    (h : ∃ item ∈ items, ∃ e, parseRecord item = Except.error e) :
    ∃ e, parseRecords items = Except.error e := by
  induction items with
  | nil => simp at h
  | cons it rest ih =>
    rcases h with ⟨x, hx, hfail⟩
    rw [List.mem_cons] at hx
    cases hpr : parseRecord it with
    | error e => exact ⟨e, by simp [parseRecords, hpr]⟩
    | ok r =>
      have hx2 : x ∈ rest := by
        rcases hx with rfl | hx
        · rcases hfail with ⟨e, he⟩
          rw [hpr] at he
          simp at he
        · exact hx
      rcases ih ⟨x, hx2, hfail⟩ with ⟨e, he⟩
      exact ⟨e, by simp [parseRecords, hpr, he]⟩

/-- When the record-conversion loop succeeds it converts every item. -/
lemma parseRecords_ok_length (items : List JsonVal) (recs : List BenchmarkingResult)
    (h : parseRecords items = Except.ok recs) : recs.length = items.length := by
  induction items generalizing recs with
  | nil =>
    simp [parseRecords] at h
    rw [h]
    rfl
  | cons it rest ih =>
    unfold parseRecords at h
    cases hpr : parseRecord it with
    | error e =>
      rw [hpr] at h
      simp at h
    | ok r =>
      rw [hpr] at h
      cases hrr : parseRecords rest with
      | error e =>
        rw [hrr] at h
        simp at h
      | ok rs =>
        rw [hrr] at h
        simp at h
        rw [← h]
        simp [ih rs hrr]

/-- C9: a missing/unreadable/malformed seed file makes the loader fail
with the wrapped descriptive error, any single invalid record in the
sequence makes the whole load fail, and a successful load converts every
record — there is no partial success. -/
theorem seed_loader_fatal_spec (file : Except String JsonVal) :
    (∀ msg, file = Except.error msg →
      load_test_data file = Except.error ("Error loading test database: " ++ msg)) ∧
    (∀ kvs items, file = Except.ok (JsonVal.objVal kvs) →
      List.lookup "benchmarking_results" kvs = some (JsonVal.arrVal items) →
      ((∃ item ∈ items, ∃ e, parseRecord item = Except.error e) →
        ∃ msg, load_test_data file = Except.error msg) ∧
      (∀ recs, load_test_data file = Except.ok recs → recs.length = items.length)) := by
  constructor
  · intro msg h
    rw [h]
    rfl
  · intro kvs items hfile hkey
    subst hfile
    constructor
    · intro hbad
      rcases parseRecords_error_of_mem items hbad with ⟨e, he⟩
      exact ⟨"Error loading test database: " ++ e, by simp [load_test_data, hkey, he]⟩
    · intro recs hok
      simp [load_test_data, hkey] at hok
      cases hpr : parseRecords items with
      | error e =>
        rw [hpr] at hok
        simp at hok
      | ok rs =>
        rw [hpr] at hok
        simp at hok
        rw [← hok]
        exact parseRecords_ok_length items rs hpr

/-- C9 witness: a seed document whose sequence holds one non-object item
makes the whole load fail. -/
theorem seed_loader_fatal_spec_witness :
    (∃ item ∈ [JsonVal.intVal 5], ∃ e, parseRecord item = Except.error e) ∧
    (∃ msg, load_test_data (Except.ok (JsonVal.objVal
      [("benchmarking_results", JsonVal.arrVal [JsonVal.intVal 5])])) =
        Except.error msg) := by
  have hbad : ∃ item ∈ [JsonVal.intVal 5], ∃ e, parseRecord item = Except.error e :=
    ⟨JsonVal.intVal 5, List.Mem.head _, "record is not a mapping", rfl⟩
  refine ⟨hbad, ?_⟩
  exact ((seed_loader_fatal_spec (Except.ok (JsonVal.objVal
      [("benchmarking_results", JsonVal.arrVal [JsonVal.intVal 5])]))).2
    [("benchmarking_results", JsonVal.arrVal [JsonVal.intVal 5])]
    [JsonVal.intVal 5] rfl rfl).1 hbad

/-- C10: a seed document without the top-level key loads successfully with
zero records, startup in debug mode succeeds with an empty store in
active mode, and the unwindowed endpoint then returns 404. -/
theorem missing_key_spec (kvs : List (String × JsonVal))
    (h : List.lookup "benchmarking_results" kvs = none) :
    load_test_data (Except.ok (JsonVal.objVal kvs)) = Except.ok [] ∧
    startup_store (some "true") (Except.ok (JsonVal.objVal kvs)) = Except.ok [] ∧
    serviceMode (some "true") = Mode.active ∧
    get_average_results [] = Response.httpError 404 "No benchmarking results found." := by
  have h1 : load_test_data (Except.ok (JsonVal.objVal kvs)) = Except.ok [] := by
    simp [load_test_data, h]
  have hd : SUPERBENCHMARK_DEBUG (some "true") = true := by decide
  refine ⟨h1, ?_, ?_, rfl⟩
  · simp [startup_store, hd, h1]
  · simp [serviceMode, hd]

/-- C10 witness: the empty JSON object loads as zero records and the
endpoint over the resulting empty store gives 404. -/
theorem missing_key_spec_witness :
    load_test_data (Except.ok (JsonVal.objVal [])) = Except.ok [] ∧
    startup_store (some "true") (Except.ok (JsonVal.objVal [])) = Except.ok [] ∧
    get_average_results [] = Response.httpError 404 "No benchmarking results found." := by
  have h := missing_key_spec [] rfl
  exact ⟨h.1, h.2.1, h.2.2.2⟩

end SuperBenchmark
